import Mathlib

/-!
Shallow embedding of `src/fetch_youtube_analytics.py` (YouTube Analytics Data
Collector).  Python floats are modelled as exact rationals `ℚ`, Python ints as
`ℤ`/`ℚ`, API exceptions as `Except Err`.  Each definition mirrors one Python
function; line references point into `src/fetch_youtube_analytics.py`.
-/

attribute [local semireducible] Rat.add Rat.mul Rat.sub Rat.inv Rat.ofScientific

namespace YTA

/-- An opaque API/transport error (Python exception).  The payload is
irrelevant to the program, which only catches and discards exceptions. -/
abbrev Err := Unit

/-- Floor of a rational, computed directly on its normalised representation
(the denominator is positive, so flooring division of `num` by `den` is the
mathematical floor). -/
def ratFloor (q : ℚ) : ℤ := q.num.fdiv (q.den : ℤ)

/-- Ceiling of a rational. -/
def ratCeil (q : ℚ) : ℤ := -ratFloor (-q)

/-- Python `round(q)`: round to the nearest integer, ties to even
(banker's rounding). -/
def pythonRound (q : ℚ) : ℤ :=
  let f := ratFloor q
  let r := q - (f : ℚ)
  if r < 1/2 then f
  else if 1/2 < r then f + 1
  else if f % 2 = 0 then f else f + 1

/-- Python `round(q, 1)`: round to one decimal digit, ties to even. -/
def pythonRound1 (q : ℚ) : ℚ := (pythonRound (10 * q) : ℚ) / 10

/-- Python `int(q)`: truncation toward zero. -/
def pythonInt (q : ℚ) : ℤ := if 0 ≤ q then ratFloor q else ratCeil q

/-- One row of a tabular analytics response.  The API returns a list per row:
a leading dimension key (a date string such as `"2025-09-15"`, or a traffic
source type, or a video id) followed by the requested numeric metrics.
`key` is `row[0]`; `nums` holds `row[1]`, `row[2]`, ... -/
structure MetricRow where
  key : String
  nums : List ℚ
deriving Repr, DecidableEq

/-- Access `row[i]` for `i ≥ 1` (the numeric columns).  Out-of-range access returns
`0`; every use either mirrors a Python guard `row[i] if len(row) > i else 0`
or is applied to rows of the documented width. -/
def MetricRow.get (r : MetricRow) (i : ℕ) : ℚ := r.nums.getD (i - 1) 0

/-- Python `len(row)`: the key plus the numeric columns. -/
def MetricRow.len (r : MetricRow) : ℕ := 1 + r.nums.length

/-- Line 107: `ctr_values = [row[3] if len(row) > 3 else 0 for row in rows]`. -/
def ctr_values_of (rows : List MetricRow) : List ℚ :=
  rows.map (fun row => if 3 < row.len then row.get 3 else 0)

/-- Function `fetch_click_through_rate` (lines 89-116).  The query result is the
caller-supplied `resp`; the whole body is inside `try`, so a raised error
falls through to the fallback `4.8`, as does an empty row list. -/
def fetch_click_through_rate (resp : Except Err (List MetricRow)) : ℚ :=
  match resp with
  | .error _ => 4.8
  | .ok rows =>
    match rows with
    | [] => 4.8
    | _ :: _ =>
      if ctr_values_of rows = [] then 0
      else (ctr_values_of rows).sum / ((ctr_values_of rows).length : ℚ)

/-- The four traffic buckets (lines 137-142), in Python dict insertion order
`search, browse, external, other`. -/
structure Traffic (α : Type) where
  search : α
  browse : α
  external : α
  other : α
deriving Repr, DecidableEq

/-- Sum of the four bucket values. -/
def Traffic.total {α : Type} [Add α] (t : Traffic α) : α :=
  t.search + t.browse + t.external + t.other

/-- Python `sub in l` on character lists: `sub` occurs contiguously in `l`. -/
def listContains (l sub : List Char) : Bool :=
  match l with
  | [] => sub.isEmpty
  | _ :: t => sub.isPrefixOf l || listContains t sub

/-- ASCII uppercase of one character (`str.upper()` restricted to ASCII,
which covers every traffic-source-type string the API emits). -/
def upperChar (c : Char) : Char :=
  if 'a' ≤ c ∧ c ≤ 'z' then Char.ofNat (c.toNat - 32) else c

/-- Python `s.upper()` as a character list. -/
def upperStr (s : String) : List Char := s.toList.map upperChar

/-- Which bucket a traffic source type lands in: the `if/elif` chain of
lines 150-157, on the uppercased source type. -/
inductive Bucket | search | browse | external | other
deriving Repr, DecidableEq

def classify (source_type : String) : Bucket :=
  let u := upperStr source_type
  if listContains u "SEARCH".toList || listContains u "YT_SEARCH".toList then .search
  else if listContains u "BROWSE".toList || listContains u "SUGGESTED".toList
      || listContains u "RELATED".toList then .browse
  else if listContains u "EXTERNAL".toList || listContains u "EXT".toList then .external
  else .other

/-- The per-row percentage accumulation loop of lines 145-157.  `row[0]` is
the source type, `row[1]` the view count. -/
def accumSources (rows : List MetricRow) (total_views : ℚ) : Traffic ℚ :=
  rows.foldl
    (fun acc row =>
      let percentage := if 0 < total_views then row.get 1 / total_views * 100 else 0
      match classify row.key with
      | .search => { acc with search := acc.search + percentage }
      | .browse => { acc with browse := acc.browse + percentage }
      | .external => { acc with external := acc.external + percentage }
      | .other => { acc with other := acc.other + percentage })
    ⟨0, 0, 0, 0⟩

/-- Lines 133-160: total views, percentage accumulation, and the per-bucket
`round` to integers. -/
def trafficRounded (rows : List MetricRow) : Traffic ℤ :=
  let total_views := (rows.map (fun row => row.get 1)).sum
  let q := accumSources rows total_views
  ⟨pythonRound q.search, pythonRound q.browse, pythonRound q.external, pythonRound q.other⟩

/-- Line 166: `sources[max_key] += (100 - total)` where `max_key` is the
first key (in dict order search, browse, external, other) holding the
maximum value — Python's `max(sources, key=sources.get)`. -/
def addResidual (t : Traffic ℤ) (d : ℤ) : Traffic ℤ :=
  let m := max (max t.search t.browse) (max t.external t.other)
  if t.search = m then { t with search := t.search + d }
  else if t.browse = m then { t with browse := t.browse + d }
  else if t.external = m then { t with external := t.external + d }
  else { t with other := t.other + d }

/-- Lines 162-166: force the rounded buckets to sum to 100. -/
def adjustTo100 (s : Traffic ℤ) : Traffic ℤ :=
  if s.total ≠ 100 then addResidual s (100 - s.total) else s

/-- Function `fetch_traffic_sources` (lines 119-173).  On any query error the default
distribution `{search 42, browse 31, external 18, other 9}` is returned
(line 173). -/
def fetch_traffic_sources (resp : Except Err (List MetricRow)) : Traffic ℤ :=
  match resp with
  | .error _ => ⟨42, 31, 18, 9⟩
  | .ok rows => adjustTo100 (trafficRounded rows)

/-- Line 349: `avg_view_duration = rows[-1][3] if rows else 0` — the most
recent day's `averageViewDuration` column, not a period mean. -/
def avg_view_duration (rows : List MetricRow) : ℚ :=
  match rows with
  | [] => 0
  | r :: rs => ((r :: rs).getLast (List.cons_ne_nil r rs)).get 3

/-- Helper for `everyNth`: `k` is how many elements are still to be skipped
before the next kept one. -/
def everyNthAux {α : Type} : List α → ℕ → ℕ → List α
  | [], _, _ => []
  | x :: xs, step, 0 => x :: everyNthAux xs step (step - 1)
  | _ :: xs, step, k + 1 => everyNthAux xs step k

/-- Python `l[::step]` for `step ≥ 1`: the elements at indices
`0, step, 2*step, ...`. -/
def everyNth {α : Type} (l : List α) (step : ℕ) : List α := everyNthAux l step 0

/-- How many elements `everyNthAux` keeps, as a function of the input
length alone. -/
def countAux : ℕ → ℕ → ℕ → ℕ
  | 0, _, _ => 0
  | n + 1, step, 0 => countAux n step (step - 1) + 1
  | n + 1, step, k + 1 => countAux n step k

/-- The `strftime('%b')` month abbreviations (months are `1`-`12`). -/
def monthAbbrev : ℕ → String
  | 1 => "Jan" | 2 => "Feb" | 3 => "Mar" | 4 => "Apr"
  | 5 => "May" | 6 => "Jun" | 7 => "Jul" | 8 => "Aug"
  | 9 => "Sep" | 10 => "Oct" | 11 => "Nov" | 12 => "Dec"
  | _ => ""

/-- Numeric value of an ASCII digit character. -/
def digitVal (c : Char) : ℕ := c.toNat - 48

/-- Lines 248-249: parse a `YYYY-MM-DD` date string and reformat it as
`'%b %d'` (e.g. `"2025-10-15"` becomes `"Oct 15"`; `%d` keeps the zero
padding).  `strptime` raises on a malformed string; that path is not
reachable from the API's `day`-dimension rows, so it is mapped to `""`. -/
def formatDate (s : String) : String :=
  match s.toList with
  | [_, _, _, _, '-', m1, m2, '-', d1, d2] =>
    monthAbbrev (10 * digitVal m1 + digitVal m2) ++ " " ++ String.mk [d1, d2]
  | _ => ""

/-- The chart payload `{labels, values}` (lines 254-257). -/
structure Chart where
  labels : List String
  values : List ℚ
deriving Repr, DecidableEq

/-- Line 245: `net_growth = subs_gained - subs_lost`, with the guarded
accesses `row[4] if len(row) > 4 else 0` and `row[5] if len(row) > 5 else 0`
of lines 243-244. -/
def netGrowth (row : MetricRow) : ℚ :=
  (if 4 < row.len then row.get 4 else 0) - (if 5 < row.len then row.get 5 else 0)

/-- Function `calculate_subscriber_growth_chart` (lines 223-257): empty input gives
an empty chart; otherwise take every `max(1, len(rows) // 6)`-th row and
emit a formatted date label and the net subscriber growth per kept row. -/
def calculate_subscriber_growth_chart (rows : List MetricRow) : Chart :=
  match rows with
  | [] => ⟨[], []⟩
  | _ :: _ =>
    let step := max 1 (rows.length / 6)
    let selected := everyNth rows step
    ⟨selected.map (fun row => formatDate row.key), selected.map netGrowth⟩

/-- The `best_video` record (lines 192-197 and 215-220). -/
structure VideoSummary where
  title : String
  views : ℚ
  watch_hours : ℚ
  likes : ℚ
deriving Repr, DecidableEq

/-- The title enrichment of lines 204-213: the metadata lookup yields the
title list of the response's `items`; a raised error is caught and replaced
by `'Video ' + video_id[:10]`, an empty `items` list by `'Unknown Title'`. -/
def titleOf (lookup : Except Err (List String)) (video_id : String) : String :=
  match lookup with
  | .error _ => "Video " ++ video_id.take 10
  | .ok [] => "Unknown Title"
  | .ok (t :: _) => t

/-- The pure tail of `fetch_top_video` (lines 190-220), applied to the rows
of an already-successful analytics query. -/
def topVideoOf (rows : List MetricRow) (lookup : String → Except Err (List String)) :
    VideoSummary :=
  match rows with
  | [] => ⟨"No videos in this period", 0, 0, 0⟩
  | r0 :: _ =>
    let video_id := r0.key
    let views := r0.get 1
    let minutes_watched := r0.get 2
    let likes := if 3 < r0.len then r0.get 3 else 0
    ⟨titleOf (lookup video_id) video_id, views, pythonRound1 (minutes_watched / 60), likes⟩

/-- Function `fetch_top_video` (lines 176-220).  The analytics query of lines 180-188
is not inside any `try`, so its failure propagates to the caller. -/
def fetch_top_video (resp : Except Err (List MetricRow))
    (lookup : String → Except Err (List String)) : Except Err VideoSummary :=
  match resp with
  | .error e => .error e
  | .ok rows => .ok (topVideoOf rows lookup)

/-- One item of the search response (lines 281-283): `id.videoId` plus the
snippet's `title` and `publishedAt`. -/
structure SearchItem where
  videoId : String
  title : String
  publishedAt : String
deriving Repr, DecidableEq

/-- The `statistics` record of a per-video metadata lookup (line 292). -/
structure Stats where
  viewCount : ℤ
  likeCount : ℤ
deriving Repr, DecidableEq

/-- One element of `video_launches` (lines 299-306). -/
structure VideoLaunch where
  date : String
  full_date : String
  title : String
  views : ℤ
  likes : ℤ
  video_id : String
deriving Repr, DecidableEq

/-- Lines 295-301: `strptime(published_at, '%Y-%m-%dT%H:%M:%SZ')` followed
by `strftime('%b %d')` and `strftime('%Y-%m-%d')`.  Returns
`(formatted_date, full_date)`, or `none` when the string does not match the
format (in Python a raised `ValueError`, caught by the enclosing `try`). -/
def parseTimestamp (s : String) : Option (String × String) :=
  match s.toList with
  | [y1, y2, y3, y4, '-', m1, m2, '-', d1, d2, 'T', h1, h2, ':', n1, n2, ':', s1, s2, 'Z'] =>
    if ([y1, y2, y3, y4, m1, m2, d1, d2, h1, h2, n1, n2, s1, s2].all Char.isDigit)
        ∧ 1 ≤ 10 * digitVal m1 + digitVal m2 ∧ 10 * digitVal m1 + digitVal m2 ≤ 12
        ∧ 1 ≤ 10 * digitVal d1 + digitVal d2 ∧ 10 * digitVal d1 + digitVal d2 ≤ 31 then
      some (monthAbbrev (10 * digitVal m1 + digitVal m2) ++ " " ++ String.mk [d1, d2],
            String.mk [y1, y2, y3, y4, '-', m1, m2, '-', d1, d2])
    else none
  | _ => none

/-- The enrichment loop of lines 281-306: for each search item look up its
statistics (a raised error escapes the loop to the enclosing `try`), skip
items whose lookup returns no `items`, and otherwise build a `VideoLaunch`
from the parsed publish timestamp. -/
def buildLaunches (items : List SearchItem) (statsOf : String → Except Err (List Stats)) :
    Except Err (List VideoLaunch) :=
  match items with
  | [] => .ok []
  | item :: rest =>
    match statsOf item.videoId with
    | .error e => .error e
    | .ok [] => buildLaunches rest statsOf
    | .ok (stats :: _) =>
      match parseTimestamp item.publishedAt with
      | none => .error ()
      | some (formatted_date, full_date) =>
        match buildLaunches rest statsOf with
        | .error e => .error e
        | .ok tail =>
          .ok (⟨formatted_date, full_date, item.title, stats.viewCount, stats.likeCount,
                item.videoId⟩ :: tail)

/-- The sort key of line 309: compare launches by their `full_date` string
(Python compares strings lexicographically by code point, as does Lean). -/
def launchLe (a b : VideoLaunch) : Prop := a.full_date ≤ b.full_date

instance : DecidableRel launchLe :=
  fun a b => inferInstanceAs (Decidable (a.full_date ≤ b.full_date))

instance : IsTotal VideoLaunch launchLe :=
  ⟨fun a b => le_total a.full_date b.full_date⟩

instance : IsTrans VideoLaunch launchLe :=
  ⟨fun _ _ _ hab hbc => le_trans hab hbc⟩

/-- Function `fetch_recent_videos` (lines 260-316).  The whole body is inside `try`:
any failure — of the search query, of a per-video statistics lookup, or of
timestamp parsing — degrades to the empty list (line 316).  Otherwise the
built launches are sorted ascending by `full_date` (line 309); Python's
stable `list.sort` and the stable `insertionSort` agree on every input. -/
def fetch_recent_videos (searchQ : Except Err (List SearchItem))
    (statsOf : String → Except Err (List Stats)) : List VideoLaunch :=
  match searchQ with
  | .error _ => []
  | .ok items =>
    match buildLaunches items statsOf with
    | .error _ => []
    | .ok video_launches => List.insertionSort launchLe video_launches

/-- The output document of lines 358-371 (§6's field list). -/
structure Report where
  last_updated : String
  total_watch_hours : ℚ
  avg_view_duration : ℤ
  duration_change : Option ℚ
  click_through_rate : ℚ
  ctr_change : Option ℚ
  subscribers_gained : ℚ
  subscribers_lost : ℚ
  subscriber_growth_chart : Chart
  traffic_sources : Traffic ℤ
  best_video : VideoSummary
  video_launches : List VideoLaunch
deriving Repr, DecidableEq

/-- One run's external world, downstream of authentication: the result each
API call would produce.  Function-valued fields model the per-video
secondary lookups. -/
structure Env where
  today : String
  metricsQ : Except Err (List MetricRow)
  ctrQ : Except Err (List MetricRow)
  trafficQ : Except Err (List MetricRow)
  topVideoQ : Except Err (List MetricRow)
  titleLookup : String → Except Err (List String)
  searchQ : Except Err (List SearchItem)
  statsOf : String → Except Err (List Stats)

/-- Function `main` (lines 319-385), downstream of authentication.  The channel
metrics query (line 336, `fetch_channel_metrics`, which has no `try`) and
the top-video analytics query (line 339) propagate failures; all other
derivations handle their own.  The ok value is the JSON document written to
the output file, after which the process exits zero. -/
def main (env : Env) : Except Err Report :=
  match env.metricsQ with
  | .error e => .error e
  | .ok rows =>
    match fetch_top_video env.topVideoQ env.titleLookup with
    | .error e => .error e
    | .ok top_video =>
      .ok {
        last_updated := env.today
        total_watch_hours := pythonRound1 ((rows.map (fun row => row.get 2)).sum / 60)
        avg_view_duration := pythonInt (avg_view_duration rows)
        duration_change := none
        click_through_rate := pythonRound1 (fetch_click_through_rate env.ctrQ)
        ctr_change := none
        subscribers_gained := (rows.map (fun row => row.get 4)).sum
        subscribers_lost := (rows.map (fun row => row.get 5)).sum
        subscriber_growth_chart := calculate_subscriber_growth_chart rows
        traffic_sources := fetch_traffic_sources env.trafficQ
        best_video := top_video
        video_launches := fetch_recent_videos env.searchQ env.statsOf }

/-- The arithmetic mean of the duration column across all rows.  This
definition follows the SPEC's words ("the arithmetic mean of the duration
column"), not the code: it exists only to be compared against
`avg_view_duration`, which the code actually computes. -/
def spec_mean_duration (rows : List MetricRow) : ℚ :=
  (rows.map (fun row => row.get 3)).sum / (rows.length : ℚ)

/-- Concrete traffic rows whose bucket percentages are
`41.3 / 31.0 / 19.3 / 8.4` (views 413/310/193/84 of 1000), which round to
`41 / 31 / 19 / 8`, summing to 99. -/
def rowsC3 : List MetricRow :=
  [⟨"SEARCH", [413]⟩, ⟨"BROWSE", [310]⟩, ⟨"EXTERNAL", [193]⟩, ⟨"PLAYLIST", [84]⟩]

/-- A two-day metrics table whose last duration (20) differs from the mean
duration (15).  Row layout: `[date, views, minutes, duration, gained, lost]`. -/
def rowsC4 : List MetricRow :=
  [⟨"2025-10-01", [5, 120, 10, 3, 1]⟩, ⟨"2025-10-02", [7, 60, 20, 2, 1]⟩]

/-- A CTR table whose rate column is `1, 1, 2`: the mean is `4/3`, which is
not representable in one decimal digit. -/
def rowsC5 : List MetricRow :=
  [⟨"2025-10-01", [0, 0, 1]⟩, ⟨"2025-10-02", [0, 0, 1]⟩, ⟨"2025-10-03", [0, 0, 2]⟩]

/-- A one-day metrics table whose last (only) duration is fractional:
`7.9` seconds. -/
def rowsC10 : List MetricRow := [⟨"2025-10-01", [4, 30, 79/10, 2, 1]⟩]

/-- A 30-row daily metrics table. -/
def rows30 : List MetricRow := List.replicate 30 ⟨"2025-09-15", [1, 2, 3, 4, 1]⟩

/-- A 3-row daily metrics table. -/
def rows3 : List MetricRow := List.replicate 3 ⟨"2025-09-15", [1, 2, 3, 4, 1]⟩

/-- A run in which every query succeeds (with empty result sets). -/
def env0 : Env where
  today := "2025-10-12"
  metricsQ := .ok []
  ctrQ := .ok []
  trafficQ := .ok []
  topVideoQ := .ok []
  titleLookup := fun _ => .ok []
  searchQ := .ok []
  statsOf := fun _ => .ok []

/-- A run in which only the channel-metrics query fails. -/
def envMetricsDown : Env := { env0 with metricsQ := .error () }

/-- A run in which the channel-metrics and top-video queries succeed but
every other API call fails. -/
def envOthersDown : Env where
  today := "2025-10-12"
  metricsQ := .ok []
  ctrQ := .error ()
  trafficQ := .error ()
  topVideoQ := .ok []
  titleLookup := fun _ => .error ()
  searchQ := .error ()
  statsOf := fun _ => .error ()

/-- A run whose CTR query returns `rowsC5` and everything else succeeds. -/
def envC5 : Env := { env0 with ctrQ := .ok rowsC5 }

/-- A run whose channel-metrics query returns `rowsC10`. -/
def envC10 : Env := { env0 with metricsQ := .ok rowsC10 }

/-- A title lookup that always raises. -/
def lookupFail : String → Except Err (List String) := fun _ => .error ()

/-- A top-video analytics row: video id, views, minutes watched, likes. -/
def rowC8 : MetricRow := ⟨"abcdefghij123", [100, 120, 5]⟩

/-- A search item for the recent-launch fixtures. -/
def itemC9 : SearchItem := ⟨"vid1", "A title", "2025-10-01T10:20:30Z"⟩

/-- A statistics lookup that always raises. -/
def statsFail : String → Except Err (List Stats) := fun _ => .error ()

end YTA

namespace YTA

/-- Lemma: `ratFloor` agrees with the mathematical floor. -/
lemma ratFloor_eq (q : ℚ) : ratFloor q = ⌊q⌋ := by
  rw [Rat.floor_def]
  exact Int.fdiv_eq_ediv q.num (Int.natCast_nonneg q.den)

/-- Lemma: `ratCeil` agrees with the mathematical ceiling. -/
lemma ratCeil_eq (q : ℚ) : ratCeil q = ⌈q⌉ := by
  unfold ratCeil
  rw [ratFloor_eq, Int.floor_neg, neg_neg]

/-- Lemma: `pythonInt` is floor on nonnegatives and ceiling on negatives:
truncation toward zero. -/
lemma pythonInt_eq (q : ℚ) : pythonInt q = if 0 ≤ q then ⌊q⌋ else ⌈q⌉ := by
  unfold pythonInt
  split_ifs
  · exact ratFloor_eq q
  · exact ratCeil_eq q

lemma addResidual_total (t : Traffic ℤ) (d : ℤ) :
    (addResidual t d).total = t.total + d := by
  simp only [addResidual, Traffic.total]
  split_ifs <;> simp <;> omega

lemma adjustTo100_total (s : Traffic ℤ) : (adjustTo100 s).total = 100 := by
  unfold adjustTo100
  split_ifs with h
  · rw [addResidual_total]; ring
  · omega

/-- C2: for every input to the traffic-source derivation — a successful
query with any row set (including empty or zero-total-views ones) or a
failed query that triggers the default distribution — the four returned
bucket values sum to exactly 100. -/
theorem C2_traffic_sum_100 (resp : Except Err (List MetricRow)) :
    (fetch_traffic_sources resp).total = 100 := by
  cases resp with
  | error e => cases e; decide
  | ok rows => exact adjustTo100_total _

/-- C3 counterexample: on `rowsC3` the buckets round to `{41, 31, 19, 8}`
(sum 99), yet the adjusted result is NOT the documented no-data default
`{42, 31, 18, 9}` — the adjustment changes only the largest bucket. -/
theorem C3_counterexample :
    trafficRounded rowsC3 = ⟨41, 31, 19, 8⟩ ∧
    fetch_traffic_sources (.ok rowsC3) ≠ ⟨42, 31, 18, 9⟩ := by
  decide

/-- C3 (amended): if the four buckets round to `{search 41, browse 31,
external 19, other 8}` (sum 99), the corrective adjustment adds the missing
1 to the bucket with the largest value (41 becomes 42), and the result is
`{42, 31, 19, 8}` — which is not the documented no-data default
`{42, 31, 18, 9}`. -/
theorem C3_adjustment_to_largest (rows : List MetricRow)
    (h : trafficRounded rows = ⟨41, 31, 19, 8⟩) :
    fetch_traffic_sources (.ok rows) = ⟨42, 31, 19, 8⟩ := by
  show adjustTo100 (trafficRounded rows) = _
  rw [h]; decide

theorem C3_witness :
    trafficRounded rowsC3 = ⟨41, 31, 19, 8⟩ ∧
    fetch_traffic_sources (.ok rowsC3) = ⟨42, 31, 19, 8⟩ :=
  ⟨by decide, C3_adjustment_to_largest rowsC3 (by decide)⟩

/-- A successful top-video query never yields an error: only the incoming
response's error is propagated. -/
lemma fetch_top_video_ok (rows : List MetricRow)
    (lookup : String → Except Err (List String)) :
    fetch_top_video (.ok rows) lookup = .ok (topVideoOf rows lookup) := rfl

/-- What each report field is, once a run completed: `main` only reaches its
`.ok` branch with the metrics rows and a successful top-video result in
hand. -/
lemma main_ok_fields (env : Env) (rows : List MetricRow) (r : Report)
    (hm : env.metricsQ = .ok rows) (hr : main env = .ok r) :
    r.total_watch_hours = pythonRound1 ((rows.map (fun row => row.get 2)).sum / 60) ∧
    r.avg_view_duration = pythonInt (avg_view_duration rows) ∧
    r.click_through_rate = pythonRound1 (fetch_click_through_rate env.ctrQ) ∧
    r.subscriber_growth_chart = calculate_subscriber_growth_chart rows ∧
    r.traffic_sources = fetch_traffic_sources env.trafficQ ∧
    r.video_launches = fetch_recent_videos env.searchQ env.statsOf := by
  rw [main.eq_def, hm] at hr
  cases htv : fetch_top_video env.topVideoQ env.titleLookup with
  | error e => rw [htv] at hr; simp at hr
  | ok tv =>
    rw [htv] at hr
    simp only [Except.ok.injEq] at hr
    subst hr
    exact ⟨rfl, rfl, rfl, rfl, rfl, rfl⟩

/-- C1 counterexample: a run in which only the channel-metrics query fails
(all other calls succeed) aborts with an error instead of completing — the
channel-metrics derivation has no fallback boundary. -/
theorem C1_counterexample : main envMetricsDown = .error () := rfl

lemma main_completes (env : Env) (rows tv : List MetricRow)
    (hm : env.metricsQ = .ok rows) (ht : env.topVideoQ = .ok tv) :
    (main env).isOk = true := by
  rw [main.eq_def, hm, ht, fetch_top_video_ok]
  exact rfl

/-- C1 (amended): a run that passes authentication completes, writes the
report and exits zero whenever the channel-metrics query and the top-video
analytics query succeed, no matter how every other API call fails — the
click-through-rate, traffic-source and recent-launch derivations and the
top-video title lookup all catch their own failures; but a failure of the
channel-metrics query or of the top-video analytics query is NOT caught and
aborts the run. -/
theorem C1_run_completes (env : Env) (rows tv : List MetricRow)
    (hm : env.metricsQ = .ok rows) (ht : env.topVideoQ = .ok tv) :
    (main env).isOk = true :=
  main_completes env rows tv hm ht

theorem C1_witness : (main envOthersDown).isOk = true :=
  C1_run_completes envOthersDown [] [] rfl rfl

/-- C4: for every non-empty channel-metrics table, the derived average view
duration is the duration value of the last row (the most recent day), not
the arithmetic mean of the duration column; on `rowsC4` the last value (20)
differs from the mean (15) and the result is the last value. -/
theorem C4_avg_duration_is_last_row (rows : List MetricRow) (h : rows ≠ []) :
    avg_view_duration rows = (rows.getLast h).get 3 ∧
    avg_view_duration rowsC4 = 20 ∧ spec_mean_duration rowsC4 = 15 ∧
    (20 : ℚ) ≠ 15 := by
  refine ⟨?_, by decide, by decide, by decide⟩
  cases rows with
  | nil => exact absurd rfl h
  | cons r rs => rfl

theorem C4_witness :
    avg_view_duration rowsC4 = (rowsC4.getLast (by decide)).get 3 ∧
    avg_view_duration rowsC4 = 20 ∧ spec_mean_duration rowsC4 = 15 ∧
    (20 : ℚ) ≠ 15 :=
  C4_avg_duration_is_last_row rowsC4 (by decide)

/-- For a non-empty row list the CTR derivation returns the arithmetic mean
of the (guard-defaulted) rate column. -/
lemma fetch_ctr_cons (a : MetricRow) (l : List MetricRow) :
    fetch_click_through_rate (.ok (a :: l))
      = (ctr_values_of (a :: l)).sum / ((ctr_values_of (a :: l)).length : ℚ) := by
  simp [fetch_click_through_rate, ctr_values_of]

/-- C5 counterexample: with rate column `1, 1, 2` the mean is `4/3`, but the
report field holds `round(4/3, 1) = 1.3 ≠ 4/3` — the field is the rounded
mean, not the mean. -/
theorem C5_counterexample :
    fetch_click_through_rate envC5.ctrQ = 4/3 ∧
    Except.map Report.click_through_rate (main envC5) = .ok (13/10) ∧
    (13/10 : ℚ) ≠ 4/3 := by
  refine ⟨by decide, ?_, by decide⟩
  have hm : main envC5 = .ok _ := rfl
  rw [hm]
  exact congrArg Except.ok (by decide)

/-- C5 (amended): if the click-through-rate query raises an error or
succeeds with zero rows, the `click_through_rate` field of the report is
exactly 4.8; if the query returns rows, the field is the mean of the
per-day rate column ROUNDED TO ONE DECIMAL (`round(ctr, 1)` at line 363),
not the raw mean. -/
theorem C5_ctr_field (env : Env) (r0 : List MetricRow) (r : Report)
    (hm : env.metricsQ = .ok r0) (hr : main env = .ok r) :
    ((env.ctrQ = .error () ∨ env.ctrQ = .ok []) → r.click_through_rate = 4.8) ∧
    (∀ a l, env.ctrQ = .ok (a :: l) →
      r.click_through_rate
        = pythonRound1 ((ctr_values_of (a :: l)).sum / ((ctr_values_of (a :: l)).length : ℚ))) := by
  obtain ⟨-, -, hc, -, -, -⟩ := main_ok_fields env r0 r hm hr
  constructor
  · rintro (h | h) <;> rw [hc, h] <;> decide
  · intro a l h
    rw [hc, h, fetch_ctr_cons]

theorem C5_witness :
    Except.map Report.click_through_rate (main env0) = .ok 4.8 := by
  have hm : main env0 = .ok _ := rfl
  have h := (C5_ctr_field env0 [] _ rfl hm).1 (Or.inr rfl)
  rw [hm]
  exact congrArg Except.ok h

lemma everyNthAux_length {α : Type} (l : List α) (step : ℕ) :
    ∀ k, (everyNthAux l step k).length = countAux l.length step k := by
  induction l with
  | nil => intro k; rfl
  | cons x xs ih =>
    intro k
    cases k with
    | zero => simp [everyNthAux, countAux, ih]
    | succ k => simp [everyNthAux, countAux, ih]

lemma everyNthAux_one {α : Type} (l : List α) : everyNthAux l 1 0 = l := by
  induction l with
  | nil => rfl
  | cons x xs ih => simpa [everyNthAux] using ih

lemma everyNth_one {α : Type} (l : List α) : everyNth l 1 = l :=
  everyNthAux_one l

lemma chart_cons (r : MetricRow) (rs : List MetricRow) :
    calculate_subscriber_growth_chart (r :: rs)
      = ⟨(everyNth (r :: rs) (max 1 ((r :: rs).length / 6))).map (fun row => formatDate row.key),
         (everyNth (r :: rs) (max 1 ((r :: rs).length / 6))).map netGrowth⟩ := rfl

/-- C6: the subscriber-growth chart downsampling takes every Nth row with
`N = max(1, row_count // 6)` (floor division); a 30-row input gives N = 5
and exactly 6 points, a 3-row input gives N = 1 and all 3 points. -/
theorem C6_downsampling (rows : List MetricRow) :
    (rows ≠ [] →
      calculate_subscriber_growth_chart rows
        = ⟨(everyNth rows (max 1 (rows.length / 6))).map (fun row => formatDate row.key),
           (everyNth rows (max 1 (rows.length / 6))).map netGrowth⟩) ∧
    (rows.length = 30 →
      (calculate_subscriber_growth_chart rows).labels.length = 6 ∧
      (calculate_subscriber_growth_chart rows).values.length = 6) ∧
    (rows.length = 3 →
      (calculate_subscriber_growth_chart rows).values = rows.map netGrowth ∧
      (calculate_subscriber_growth_chart rows).labels.length = 3) := by
  refine ⟨?_, ?_, ?_⟩
  · intro h
    cases rows with
    | nil => exact absurd rfl h
    | cons r rs => exact chart_cons r rs
  · intro h30
    cases rows with
    | nil => simp at h30
    | cons r rs =>
      have hl : (everyNth (r :: rs) (max 1 ((r :: rs).length / 6))).length = 6 := by
        show (everyNthAux (r :: rs) (max 1 ((r :: rs).length / 6)) 0).length = 6
        rw [everyNthAux_length, h30]
        decide
      rw [chart_cons]
      exact ⟨by simpa using hl, by simpa using hl⟩
  · intro h3
    cases rows with
    | nil => simp at h3
    | cons r rs =>
      have hstep : max 1 ((r :: rs).length / 6) = 1 := by rw [h3]; decide
      rw [chart_cons, hstep, everyNth_one]
      exact ⟨rfl, by simpa using h3⟩

theorem C6_witness :
    (calculate_subscriber_growth_chart rows30).values.length = 6 ∧
    (calculate_subscriber_growth_chart rows3).values = rows3.map netGrowth :=
  ⟨((C6_downsampling rows30).2.1 (by decide)).2,
   ((C6_downsampling rows3).2.2 (by decide)).1⟩

/-- C7: an empty channel-metrics row list is not an error — the run still
completes (given the only uncaught query, top-video, succeeds) and its
report holds `total_watch_hours = 0`, `avg_view_duration = 0`, and the
empty chart `{labels: [], values: []}`. -/
theorem C7_empty_metrics (env : Env) (tv : List MetricRow)
    (hm : env.metricsQ = .ok []) (ht : env.topVideoQ = .ok tv) :
    ∃ r, main env = .ok r ∧ r.total_watch_hours = 0 ∧ r.avg_view_duration = 0 ∧
      r.subscriber_growth_chart = ⟨[], []⟩ := by
  cases hmain : main env with
  | error e =>
    have hc := main_completes env [] tv hm ht
    rw [hmain] at hc
    cases e
    exact absurd hc (by decide)
  | ok r =>
    obtain ⟨h1, h2, -, h4, -, -⟩ := main_ok_fields env [] r hm hmain
    exact ⟨r, rfl, by rw [h1]; decide, by rw [h2]; decide, h4.trans rfl⟩

theorem C7_witness :
    Except.map Report.total_watch_hours (main env0) = .ok 0 ∧
    Except.map Report.avg_view_duration (main env0) = .ok 0 := by
  obtain ⟨r, hr, h1, h2, h3⟩ := C7_empty_metrics env0 [] rfl rfl
  rw [hr]
  exact ⟨congrArg Except.ok h1, congrArg Except.ok h2⟩

/-- C8: a top-video query returning zero rows yields exactly the
placeholder record `{title: "No videos in this period", views: 0,
watch_hours: 0, likes: 0}` rather than failing; and when the secondary
title lookup fails for any reason, the title is the synthesized placeholder
`'Video ' + video_id[:10]` rather than an error. -/
theorem C8_top_video_fallbacks (lookup : String → Except Err (List String))
    (r0 : MetricRow) (rest : List MetricRow) (hl : lookup r0.key = .error ()) :
    fetch_top_video (.ok []) lookup = .ok ⟨"No videos in this period", 0, 0, 0⟩ ∧
    Except.map VideoSummary.title (fetch_top_video (.ok (r0 :: rest)) lookup)
      = .ok ("Video " ++ r0.key.take 10) := by
  refine ⟨rfl, ?_⟩
  simp [fetch_top_video, topVideoOf, titleOf, hl, Except.map]

theorem C8_witness :
    fetch_top_video (.ok []) lookupFail = .ok ⟨"No videos in this period", 0, 0, 0⟩ ∧
    Except.map VideoSummary.title (fetch_top_video (.ok [rowC8]) lookupFail)
      = .ok ("Video " ++ rowC8.key.take 10) :=
  C8_top_video_fallbacks lookupFail rowC8 [] rfl

/-- C9: whatever order the search API returns items in, the returned
video-launch list is sorted ascending by `full_date`; and a failure of the
search query, or of any per-video statistics lookup or timestamp parse
inside the loop, yields the empty list instead of an error. -/
theorem C9_launches_sorted (searchQ : Except Err (List SearchItem))
    (statsOf : String → Except Err (List Stats)) :
    List.Sorted launchLe (fetch_recent_videos searchQ statsOf) ∧
    (searchQ = .error () → fetch_recent_videos searchQ statsOf = []) ∧
    (∀ items, searchQ = .ok items → buildLaunches items statsOf = .error () →
      fetch_recent_videos searchQ statsOf = []) := by
  have hok : ∀ items, fetch_recent_videos (.ok items) statsOf
      = match buildLaunches items statsOf with
        | .error _ => []
        | .ok video_launches => List.insertionSort launchLe video_launches :=
    fun _ => rfl
  refine ⟨?_, ?_, ?_⟩
  · cases searchQ with
    | error e => exact List.sorted_nil
    | ok items =>
      rw [hok]
      cases hb : buildLaunches items statsOf with
      | error e => exact List.sorted_nil
      | ok ls => exact List.sorted_insertionSort launchLe ls
  · intro h
    subst h
    rfl
  · intro items h hb
    subst h
    rw [hok, hb]

theorem C9_witness :
    fetch_recent_videos (.ok [itemC9]) statsFail = [] :=
  (C9_launches_sorted (.ok [itemC9]) statsFail).2.2 [itemC9] rfl rfl

/-- C10: for every non-empty channel-metrics table, the `avg_view_duration`
field actually written to the report is the last row's duration value
truncated toward zero (Python `int()`), not the verbatim value. -/
theorem C10_avg_duration_truncated (env : Env) (rows : List MetricRow) (r : Report)
    (hm : env.metricsQ = .ok rows) (h : rows ≠ []) (hr : main env = .ok r) :
    r.avg_view_duration = pythonInt ((rows.getLast h).get 3) := by
  obtain ⟨-, h2, -, -, -, -⟩ := main_ok_fields env rows r hm hr
  rw [h2]
  congr 1
  cases rows with
  | nil => exact absurd rfl h
  | cons a l => rfl

theorem C10_witness :
    Except.map Report.avg_view_duration (main envC10) = .ok 7 ∧
    avg_view_duration rowsC10 = 79/10 := by
  have hm : main envC10 = .ok _ := rfl
  have h := C10_avg_duration_truncated envC10 rowsC10 _ rfl (by decide) hm
  rw [hm]
  exact ⟨congrArg Except.ok (h.trans (by decide)), by decide⟩

end YTA
